import Mathlib

/-!
Shallow embedding of `src/backend/python_integration/crowd_analysis.py`
(class `CrowdAnalyzer`): zone configuration, density analysis, event
classification, backend dispatch, and the sampling loop of `run_analysis`.

Numeric model: Python integers are `Nat`/`Int`; the density value
(`total_people / area_sqm`) is modelled exactly in `ℚ` (the Python floats
involved in this program carry exact decimal thresholds 2.0, 1.5, 0.8 and
the comparisons in the claims are about the mathematical values).
-/

/-- A density zone: rectangle in pixel coordinates, from
`_create_density_zones` (dict with keys x, y, w, h). -/
structure Zone where
  x : Int
  y : Int
  w : Int
  h : Int
deriving Repr, DecidableEq

/-- A person detection; `analyze_crowd_density` reads only
`detection['center'] = [center_x, center_y]`. -/
structure Detection where
  center_x : Int
  center_y : Int
deriving Repr, DecidableEq

/-- `_create_density_zones`: the fixed zone configuration. -/
def density_zones : List (String × Zone) :=
  [("entrance", { x := 0, y := 0, w := 200, h := 150 }),
   ("center", { x := 200, y := 150, w := 400, h := 300 }),
   ("exit", { x := 600, y := 0, w := 200, h := 150 })]

/-- The membership test inside `analyze_crowd_density`:
`zone['x'] <= center_x <= zone['x'] + zone['w'] and
 zone['y'] <= center_y <= zone['y'] + zone['h']`. -/
def inZone (zone : Zone) (d : Detection) : Bool :=
  (zone.x ≤ d.center_x) && ((d.center_x ≤ zone.x + zone.w) &&
    ((zone.y ≤ d.center_y) && (d.center_y ≤ zone.y + zone.h)))

/-- The dict returned by `analyze_crowd_density`. -/
structure DensityReport where
  total_count : Nat
  density_per_sqm : ℚ
  density_level : String
  zone_counts : List (String × Nat)
  frame_width : Nat
  frame_height : Nat
deriving Repr, DecidableEq

/-- `analyze_crowd_density(self, detections, frame_shape)`:
`h, w = frame_shape[:2]`; per-zone counts by the inclusive rectangle test
on centers; `area_sqm = (w * h) / 10000`;
`density = total_people / area_sqm if area_sqm > 0 else 0`;
level classified by strict thresholds 2.0 / 1.5 / 0.8. -/
def analyze_crowd_density (zones : List (String × Zone))
    (detections : List Detection) (h w : Nat) : DensityReport :=
  let zone_counts := zones.map (fun z =>
    (z.1, (detections.filter (fun d => inZone z.2 d)).length))
  let total_people := detections.length
  let area_sqm : ℚ := ((w : ℚ) * (h : ℚ)) / 10000
  let density : ℚ := if area_sqm > 0 then (total_people : ℚ) / area_sqm else 0
  let density_level : String :=
    if density > 2 then "critical"
    else if density > 3/2 then "high"
    else if density > 4/5 then "medium"
    else "low"
  { total_count := total_people
    density_per_sqm := density
    density_level := density_level
    zone_counts := zone_counts
    frame_width := w
    frame_height := h }

/-- One event dict produced by `detect_crowd_events`. -/
structure Event where
  action : String
  severity : String
  description : String
  crowd_count : Nat
  density_level : String
deriving Repr, DecidableEq

/-- `max(zone_counts.values()) if zone_counts else 0`.  For a nonempty
list of `Nat` values, Python `max` equals the fold of `Nat.max` from 0. -/
def max_zone_count (zone_counts : List (String × Nat)) : Nat :=
  if zone_counts.isEmpty then 0
  else (zone_counts.map Prod.snd).foldl Nat.max 0

/-- `detect_crowd_events(self, analysis_data)`: the overcrowding rule
(`total_count > 20`, severity `high` iff `> 30`) followed by the
crowd-gathering rule (`max_zone_count > 8`, severity `medium`), appended
in that order. -/
def detect_crowd_events (analysis_data : DensityReport) : List Event :=
  let total_count := analysis_data.total_count
  let density_level := analysis_data.density_level
  let overcrowding : List Event :=
    if total_count > 20 then
      [{ action := "overcrowding_detected"
         severity := if total_count > 30 then "high" else "medium"
         description := "High crowd density detected: " ++
           toString total_count ++ " people"
         crowd_count := total_count
         density_level := density_level }]
    else []
  let gathering : List Event :=
    if max_zone_count analysis_data.zone_counts > 8 then
      [{ action := "crowd_gathering"
         severity := "medium"
         description := "Crowd gathering detected in zone"
         crowd_count := total_count
         density_level := density_level }]
    else []
  overcrowding ++ gathering

/-- The `backend_data` dict built in the sampled branch of `run_analysis`. -/
structure ReportEnvelope where
  timestamp : String
  camera_id : String
  location : String
  analysis : DensityReport
  events : List Event
deriving Repr, DecidableEq

/-- A top-level value of the dispatched `backend_data` dict. -/
inductive JsonValue where
  | str (s : String)
  | report (r : DensityReport)
  | eventList (es : List Event)
deriving Repr, DecidableEq

/-- Stand-in for Python `str()` on a dict value, as an f-string would
render it. -/
def JsonValue.display : JsonValue → String
  | .str s => s
  | .report r => reprStr r
  | .eventList es => reprStr es

/-- The top-level mapping of the `backend_data` dict the program
dispatches: keys `timestamp`, `camera_id`, `location`, `analysis`,
`events`.  The person count is nested under `analysis`; there is no
top-level `total_count` entry. -/
def backend_data_dict (env : ReportEnvelope) : List (String × JsonValue) :=
  [("timestamp", JsonValue.str env.timestamp),
   ("camera_id", JsonValue.str env.camera_id),
   ("location", JsonValue.str env.location),
   ("analysis", JsonValue.report env.analysis),
   ("events", JsonValue.eventList env.events)]

/-- Python dict subscript `d[key]`: the value when the key is present,
otherwise a raised `KeyError`. -/
def dictGet (d : List (String × JsonValue)) (key : String) :
    Except String JsonValue :=
  match d.lookup key with
  | some v => Except.ok v
  | none => Except.error ("KeyError: " ++ key)

/-- Result of the outbound `requests.post` call, as seen by
`send_to_backend`: either a response with a status code, or an exception
(timeout or transport error) raised by the request. -/
inductive HttpResult where
  | response (status_code : Nat)
  | timeout
  | transportError (msg : String)
deriving Repr, DecidableEq

/-- What `send_to_backend` does with the request result: it either prints
the success message or prints a diagnostic; it never re-raises (the whole
body is in `try/except Exception`), so there is no exceptional outcome. -/
inductive DispatchOutcome where
  | success (msg : String)
  | failureLogged (msg : String)
deriving Repr, DecidableEq

/-- `send_to_backend(self, data)` applied to the envelope the program
dispatches (`backend_data`): on a 200 response the success print
evaluates `data['total_count']` inside the `try`; that key is absent
from the envelope's top level (the count lives under `analysis`), so the
subscript raises `KeyError`, which the same `except Exception` catches
and logs as a failure.  Any other status logs a warning; a raised
timeout or transport error is caught and logged. -/
def send_to_backend (data : ReportEnvelope) (result : HttpResult) : DispatchOutcome :=
  match result with
  | .response code =>
      if code == 200 then
        match dictGet (backend_data_dict data) "total_count" with
        | .ok v =>
            .success ("Data sent to backend: " ++ v.display ++ " people")
        | .error e =>
            .failureLogged ("Failed to send data to backend: " ++ e)
      else
        .failureLogged ("Backend response: " ++ toString code)
  | .timeout =>
      .failureLogged "Failed to send data to backend: timeout"
  | .transportError m =>
      .failureLogged ("Failed to send data to backend: " ++ m)

/-- Whether a dispatch outcome is the success branch. -/
def DispatchOutcome.isSuccess : DispatchOutcome → Bool
  | .success _ => true
  | .failureLogged _ => false

/-- Frame dimensions, standing for `frame.shape[:2] = (h, w)`. -/
structure Frame where
  height : Nat
  width : Nat
deriving Repr, DecidableEq

/-- The pipeline stages that the sampled branch of `run_analysis` runs. -/
inductive Stage where
  | detect
  | analyze
  | classify
  | dispatch
deriving Repr, DecidableEq

/-- The external inputs one loop iteration of `run_analysis` consumes:
the frame read from the capture source (`none` when `cap.read()` fails),
what `detect_people` would return on that frame, the HTTP result the
outbound request would yield, and the wall-clock timestamp. -/
structure CycleInput where
  frame : Option Frame
  detections : List Detection
  http : HttpResult
  timestamp : String
deriving Repr, DecidableEq

/-- The loop state crossing iteration boundaries: only `frame_count`
(the diagnostic time counters do not affect the pipeline). -/
structure LoopState where
  frame_count : Nat
deriving Repr, DecidableEq

/-- Observable result of one loop iteration. -/
structure CycleResult where
  stages : List Stage
  report : Option ReportEnvelope
  outcome : Option DispatchOutcome
  presented : Bool
deriving Repr, DecidableEq

/-- One iteration of the `while True` body of `run_analysis`: read a
frame (a failed read breaks the loop, modelled as `none`); increment
`frame_count`; when `frame_count % 3 == 0` run detection, density
analysis, event classification, build `backend_data` and dispatch it;
display the frame every iteration when `show_video`. -/
def run_analysis_cycle (zones : List (String × Zone)) (show_video : Bool)
    (st : LoopState) (inp : CycleInput) :
    Option (LoopState × CycleResult) :=
  match inp.frame with
  | none => none
  | some fr =>
    let fc := st.frame_count + 1
    if fc % 3 == 0 then
      let detections := inp.detections
      let analysis_data := analyze_crowd_density zones detections fr.height fr.width
      let events := detect_crowd_events analysis_data
      let backend_data : ReportEnvelope :=
        { timestamp := inp.timestamp
          camera_id := "CAM001"
          location := "Main Entrance"
          analysis := analysis_data
          events := events }
      let outcome := send_to_backend backend_data inp.http
      some ({ frame_count := fc },
        { stages := [Stage.detect, Stage.analyze, Stage.classify, Stage.dispatch]
          report := some backend_data
          outcome := some outcome
          presented := show_video })
    else
      some ({ frame_count := fc },
        { stages := []
          report := none
          outcome := none
          presented := show_video })

/-- The `run_analysis` loop over a stream of cycle inputs: a failed frame
read terminates the run; otherwise every iteration yields its result. -/
def run_analysis_loop (zones : List (String × Zone)) (show_video : Bool)
    (st : LoopState) : List CycleInput → List CycleResult
  | [] => []
  | inp :: rest =>
    match run_analysis_cycle zones show_video st inp with
    | none => []
    | some (st2, res) => res :: run_analysis_loop zones show_video st2 rest

/-- A sample density report used to instantiate event-classification
theorems at concrete inputs. -/
def sampleReport (tc zc : Nat) : DensityReport :=
  { total_count := tc
    density_per_sqm := 0
    density_level := "low"
    zone_counts := [("entrance", zc), ("center", 0), ("exit", 0)]
    frame_width := 1280
    frame_height := 720 }

/-- A sample report envelope used to instantiate dispatch theorems at a
concrete input. -/
def sampleEnvelope : ReportEnvelope :=
  { timestamp := "t0"
    camera_id := "CAM001"
    location := "Main Entrance"
    analysis := sampleReport 25 10
    events := [] }

/-- A sample cycle input whose outbound request times out. -/
def inpFail : CycleInput :=
  { frame := some { height := 720, width := 1280 }
    detections := []
    http := HttpResult.timeout
    timestamp := "t1" }

/-- A sample cycle input whose outbound request succeeds. -/
def inpNext : CycleInput :=
  { frame := some { height := 720, width := 1280 }
    detections := []
    http := HttpResult.response 200
    timestamp := "t2" }

/-! ## Helper lemmas -/

/-- The density level of a report is the strict-threshold if-chain applied
to its own density value. -/
theorem density_level_eq_chain (zones : List (String × Zone))
    (dets : List Detection) (h w : Nat) :
    (analyze_crowd_density zones dets h w).density_level =
      (if (analyze_crowd_density zones dets h w).density_per_sqm > 2 then "critical"
       else if (analyze_crowd_density zones dets h w).density_per_sqm > 3/2 then "high"
       else if (analyze_crowd_density zones dets h w).density_per_sqm > 4/5 then "medium"
       else "low") := by
  simp only [analyze_crowd_density]

/-- Characterisation of the four outcomes of the strict-threshold
if-chain on an arbitrary rational density value. -/
theorem levelChainSpec (d : ℚ) :
    ((if d > 2 then "critical" else if d > 3/2 then "high"
      else if d > 4/5 then "medium" else "low") = "critical" ↔ 2 < d) ∧
    ((if d > 2 then "critical" else if d > 3/2 then "high"
      else if d > 4/5 then "medium" else "low") = "high" ↔ (3/2 < d ∧ d ≤ 2)) ∧
    ((if d > 2 then "critical" else if d > 3/2 then "high"
      else if d > 4/5 then "medium" else "low") = "medium" ↔ (4/5 < d ∧ d ≤ 3/2)) ∧
    ((if d > 2 then "critical" else if d > 3/2 then "high"
      else if d > 4/5 then "medium" else "low") = "low" ↔ d ≤ 4/5) := by
  split_ifs with h1 h2 h3 <;>
    refine ⟨?_, ?_, ?_, ?_⟩ <;>
    simp_all <;>
    first
    | linarith
    | (constructor <;> linarith)
    | (intro hc; linarith)

/-- Appending a successfully acquired cycle to a run. -/
theorem run_analysis_loop_cons (zones : List (String × Zone)) (sv : Bool)
    (st st2 : LoopState) (inp : CycleInput) (rest : List CycleInput) (res : CycleResult)
    (hc : run_analysis_cycle zones sv st inp = some (st2, res)) :
    run_analysis_loop zones sv st (inp :: rest) =
      res :: run_analysis_loop zones sv st2 rest := by
  simp [run_analysis_loop, hc]

/-- An iteration whose frame read succeeds always yields a result: the
loop body never exits early on a sampled or unsampled frame. -/
theorem run_analysis_cycle_some (zones : List (String × Zone)) (sv : Bool)
    (st : LoopState) (inp : CycleInput) (fr : Frame) (hfr : inp.frame = some fr) :
    ∃ st2 res, run_analysis_cycle zones sv st inp = some (st2, res) := by
  by_cases hs : (st.frame_count + 1) % 3 = 0 <;>
    simp [run_analysis_cycle, hfr, hs]

/-! ## Claims -/

/-- C1 (amended): for every dispatched report envelope, `send_to_backend`
never reports success: even a 200-accepted request ends in a logged
delivery failure, because the success print reads the top-level key
`total_count`, which the envelope does not have (the count is nested
under `analysis`), and the resulting `KeyError` is caught by the same
catch-all handler; every response, transport failure, or timeout is a
delivery failure that is logged rather than raised. -/
theorem C1_send_to_backend_never_success (env : ReportEnvelope) (r : HttpResult) :
    ((send_to_backend env r).isSuccess = false) ∧
    (∃ m, send_to_backend env r = DispatchOutcome.failureLogged m) ∧
    (send_to_backend env (HttpResult.response 200) =
      DispatchOutcome.failureLogged
        "Failed to send data to backend: KeyError: total_count") := by
  have h200 : send_to_backend env (HttpResult.response 200) =
      DispatchOutcome.failureLogged
        "Failed to send data to backend: KeyError: total_count" := rfl
  refine ⟨?_, ?_, h200⟩
  · cases r with
    | response code =>
      by_cases hc : code = 200
      · subst hc; rw [h200]; rfl
      · simp [send_to_backend, hc, DispatchOutcome.isSuccess]
    | timeout => rfl
    | transportError m => rfl
  · cases r with
    | response code =>
      by_cases hc : code = 200
      · subst hc; exact ⟨_, h200⟩
      · exact ⟨"Backend response: " ++ toString code, by simp [send_to_backend, hc]⟩
    | timeout => exact ⟨_, rfl⟩
    | transportError m => exact ⟨_, rfl⟩

/-- C1 counterexample: a 200 response is an acceptance, yet dispatching a
concrete envelope reports a logged failure, not success, so success is
not reported when the endpoint accepts as the claim states. -/
theorem C1_counterexample_200_accepted_but_failure_logged :
    (200 ≤ 200 ∧ 200 < 300) ∧
    (send_to_backend sampleEnvelope (HttpResult.response 200)).isSuccess = false :=
  ⟨by norm_num, rfl⟩

/-- C1 witness: the amended theorem instantiated at a concrete envelope
and a timed-out request. -/
theorem C1_send_to_backend_never_success_witness :
    ((send_to_backend sampleEnvelope HttpResult.timeout).isSuccess = false) ∧
    (∃ m, send_to_backend sampleEnvelope HttpResult.timeout =
      DispatchOutcome.failureLogged m) ∧
    (send_to_backend sampleEnvelope (HttpResult.response 200) =
      DispatchOutcome.failureLogged
        "Failed to send data to backend: KeyError: total_count") :=
  C1_send_to_backend_never_success sampleEnvelope HttpResult.timeout

/-- C2: for every detections list and frame dimensions with positive
area, the density level is determined from the density value by strict
lower bounds evaluated first-match-wins (greater than 2.0 critical,
greater than 1.5 high, greater than 0.8 medium, otherwise low); in
particular a density of exactly 2.0 yields high, not critical, and
2.0001 yields critical. -/
theorem C2_density_level_strict_thresholds (zones : List (String × Zone))
    (dets : List Detection) (h w : Nat) (_hpos : 0 < w * h) :
    ((analyze_crowd_density zones dets h w).density_level = "critical" ↔
      2 < (analyze_crowd_density zones dets h w).density_per_sqm) ∧
    ((analyze_crowd_density zones dets h w).density_level = "high" ↔
      (3/2 < (analyze_crowd_density zones dets h w).density_per_sqm ∧
       (analyze_crowd_density zones dets h w).density_per_sqm ≤ 2)) ∧
    ((analyze_crowd_density zones dets h w).density_level = "medium" ↔
      (4/5 < (analyze_crowd_density zones dets h w).density_per_sqm ∧
       (analyze_crowd_density zones dets h w).density_per_sqm ≤ 3/2)) ∧
    ((analyze_crowd_density zones dets h w).density_level = "low" ↔
      (analyze_crowd_density zones dets h w).density_per_sqm ≤ 4/5) ∧
    ((analyze_crowd_density density_zones (List.replicate 2 ⟨0, 0⟩) 100 100).density_per_sqm = 2) ∧
    ((analyze_crowd_density density_zones (List.replicate 2 ⟨0, 0⟩) 100 100).density_level = "high") ∧
    ((analyze_crowd_density density_zones (List.replicate 20001 ⟨0, 0⟩) 10000 10000).density_per_sqm =
      20001/10000) ∧
    ((analyze_crowd_density density_zones (List.replicate 20001 ⟨0, 0⟩) 10000 10000).density_level =
      "critical") :=
  ⟨by rw [density_level_eq_chain]; exact (levelChainSpec _).1,
   by rw [density_level_eq_chain]; exact (levelChainSpec _).2.1,
   by rw [density_level_eq_chain]; exact (levelChainSpec _).2.2.1,
   by rw [density_level_eq_chain]; exact (levelChainSpec _).2.2.2,
   by norm_num [analyze_crowd_density],
   by norm_num [analyze_crowd_density],
   by norm_num [analyze_crowd_density],
   by norm_num [analyze_crowd_density]⟩

/-- C2 witness: the classification equivalences applied to two
detections on a 100 by 100 frame, where the density is exactly 2. -/
theorem C2_density_level_strict_thresholds_witness :
    (0 < 100 * 100) ∧
    ((analyze_crowd_density density_zones (List.replicate 2 ⟨0, 0⟩) 100 100).density_level = "high" ↔
      (3/2 < (analyze_crowd_density density_zones (List.replicate 2 ⟨0, 0⟩) 100 100).density_per_sqm ∧
       (analyze_crowd_density density_zones (List.replicate 2 ⟨0, 0⟩) 100 100).density_per_sqm ≤ 2)) :=
  ⟨by norm_num,
   (C2_density_level_strict_thresholds density_zones (List.replicate 2 ⟨0, 0⟩) 100 100
     (by norm_num)).2.1⟩

/-- C3: for every density report, an `overcrowding_detected` event is
emitted iff `total_count > 20`; for such events the severity is `high`
iff `total_count > 30` and `medium` otherwise, and the description
contains the numeric count. -/
theorem C3_overcrowding_event_iff_count_gt_20 (r : DensityReport) :
    ((∃ e ∈ detect_crowd_events r, e.action = "overcrowding_detected") ↔
      20 < r.total_count) ∧
    (∀ e ∈ detect_crowd_events r, e.action = "overcrowding_detected" →
      ((e.severity = "high" ↔ 30 < r.total_count) ∧
       (e.severity = "medium" ↔ r.total_count ≤ 30) ∧
       ∃ p q, e.description = p ++ toString r.total_count ++ q)) := by
  unfold detect_crowd_events
  by_cases h20 : 20 < r.total_count <;>
  by_cases h8 : 8 < max_zone_count r.zone_counts <;>
  by_cases h30 : 30 < r.total_count <;>
  simp +decide [h20, h8, h30] <;>
  first
  | omega
  | exact ⟨_, _, rfl⟩
  | exact ⟨by omega, _, _, rfl⟩

/-- C3 witness: the overcrowding rule instantiated at a report with 25
people, where the event fires with severity medium. -/
theorem C3_overcrowding_event_iff_count_gt_20_witness :
    ((∃ e ∈ detect_crowd_events (sampleReport 25 10), e.action = "overcrowding_detected") ↔
      20 < (sampleReport 25 10).total_count) ∧
    (∀ e ∈ detect_crowd_events (sampleReport 25 10), e.action = "overcrowding_detected" →
      ((e.severity = "high" ↔ 30 < (sampleReport 25 10).total_count) ∧
       (e.severity = "medium" ↔ (sampleReport 25 10).total_count ≤ 30) ∧
       ∃ p q, e.description = p ++ toString (sampleReport 25 10).total_count ++ q)) :=
  C3_overcrowding_event_iff_count_gt_20 (sampleReport 25 10)

/-- C4: for every density report, a `crowd_gathering` event with severity
`medium` is emitted iff the maximum zone count (0 for an empty mapping)
exceeds 8, independently of `total_count`; the two rules are evaluated
independently, and in the scenario of 22 detections all centered in the
center zone of a 1280 by 720 frame the density level is low yet both an
`overcrowding_detected` event (severity medium) and a `crowd_gathering`
event fire in the same cycle. -/
theorem C4_crowd_gathering_event_iff_zone_gt_8 (r : DensityReport) :
    ((∃ e ∈ detect_crowd_events r, e.action = "crowd_gathering") ↔
      8 < max_zone_count r.zone_counts) ∧
    (∀ e ∈ detect_crowd_events r, e.action = "crowd_gathering" → e.severity = "medium") ∧
    ((analyze_crowd_density density_zones (List.replicate 22 ⟨400, 300⟩) 720 1280).density_level =
      "low") ∧
    ((detect_crowd_events (analyze_crowd_density density_zones
        (List.replicate 22 ⟨400, 300⟩) 720 1280)).map (fun e => (e.action, e.severity)) =
      [("overcrowding_detected", "medium"), ("crowd_gathering", "medium")]) := by
  have hA : analyze_crowd_density density_zones (List.replicate 22 ⟨400, 300⟩) 720 1280 =
      ({ total_count := 22, density_per_sqm := 275/1152, density_level := "low",
         zone_counts := [("entrance", 0), ("center", 22), ("exit", 0)],
         frame_width := 1280, frame_height := 720 } : DensityReport) := by
    norm_num [analyze_crowd_density]
    decide
  refine ⟨?_, ?_, ?_, ?_⟩
  · unfold detect_crowd_events
    by_cases h20 : 20 < r.total_count <;> by_cases h8 : 8 < max_zone_count r.zone_counts <;>
      simp +decide [h20, h8]
  · unfold detect_crowd_events
    by_cases h20 : 20 < r.total_count <;> by_cases h8 : 8 < max_zone_count r.zone_counts <;>
    by_cases h30 : 30 < r.total_count <;>
      simp +decide [h20, h8, h30]
  · rw [hA]
  · rw [hA]; decide

/-- C4 witness: the gathering rule instantiated at a report with 25
people, 10 of them in the entrance zone. -/
theorem C4_crowd_gathering_event_iff_zone_gt_8_witness :
    ((∃ e ∈ detect_crowd_events (sampleReport 25 10), e.action = "crowd_gathering") ↔
      8 < max_zone_count (sampleReport 25 10).zone_counts) ∧
    (∀ e ∈ detect_crowd_events (sampleReport 25 10), e.action = "crowd_gathering" →
      e.severity = "medium") ∧
    ((analyze_crowd_density density_zones (List.replicate 22 ⟨400, 300⟩) 720 1280).density_level =
      "low") ∧
    ((detect_crowd_events (analyze_crowd_density density_zones
        (List.replicate 22 ⟨400, 300⟩) 720 1280)).map (fun e => (e.action, e.severity)) =
      [("overcrowding_detected", "medium"), ("crowd_gathering", "medium")]) :=
  C4_crowd_gathering_event_iff_zone_gt_8 (sampleReport 25 10)

/-- C5: for every detections list, `total_count` is the number of
detections regardless of zone membership, and each zone count is the
number of detections whose center satisfies the inclusive-bound
rectangle test; a center exactly on a zone boundary is counted inside
(the detection at x = 200 = entrance.x + entrance.w), one detection can
be counted in two overlapping zones (the corner 200, 150 lies in both
entrance and center), and a detection outside all zones is counted in
none while still contributing to `total_count`. -/
theorem C5_zone_counts_inclusive_membership (zones : List (String × Zone))
    (dets : List Detection) (h w : Nat) :
    ((analyze_crowd_density zones dets h w).total_count = dets.length) ∧
    ((analyze_crowd_density zones dets h w).zone_counts =
      zones.map (fun z => (z.1, dets.countP (fun d =>
        decide (z.2.x ≤ d.center_x ∧ d.center_x ≤ z.2.x + z.2.w ∧
                z.2.y ≤ d.center_y ∧ d.center_y ≤ z.2.y + z.2.h))))) ∧
    ((analyze_crowd_density density_zones [⟨200, 0⟩] 720 1280).zone_counts =
      [("entrance", 1), ("center", 0), ("exit", 0)]) ∧
    ((analyze_crowd_density density_zones [⟨200, 150⟩] 720 1280).zone_counts =
      [("entrance", 1), ("center", 1), ("exit", 0)]) ∧
    ((analyze_crowd_density density_zones [⟨1000, 600⟩] 720 1280).zone_counts =
      [("entrance", 0), ("center", 0), ("exit", 0)]) ∧
    ((analyze_crowd_density density_zones [⟨1000, 600⟩] 720 1280).total_count = 1) := by
  refine ⟨?_, ?_, by decide, by decide, by decide, by decide⟩
  · simp [analyze_crowd_density]
  · simp [analyze_crowd_density, List.countP_eq_length_filter, inZone]

/-- C6: for an empty detections list and positive frame area,
`analyze_crowd_density` returns a zero total count, zero density, level
low, every zone count zero, and `detect_crowd_events` on that report
returns no events. -/
theorem C6_empty_detections_zero_report (h w : Nat) (_hpos : 0 < w * h) :
    ((analyze_crowd_density density_zones [] h w).total_count = 0) ∧
    ((analyze_crowd_density density_zones [] h w).density_per_sqm = 0) ∧
    ((analyze_crowd_density density_zones [] h w).density_level = "low") ∧
    (∀ p ∈ (analyze_crowd_density density_zones [] h w).zone_counts, p.2 = 0) ∧
    (detect_crowd_events (analyze_crowd_density density_zones [] h w) = []) := by
  have hz : analyze_crowd_density density_zones [] h w =
      ({ total_count := 0, density_per_sqm := 0, density_level := "low",
         zone_counts := [("entrance", 0), ("center", 0), ("exit", 0)],
         frame_width := w, frame_height := h } : DensityReport) := by
    simp [analyze_crowd_density, density_zones]
    norm_num
  rw [hz]
  exact ⟨rfl, rfl, rfl, by simp, rfl⟩

/-- C6 witness: the empty-detections report on a 1280 by 720 frame. -/
theorem C6_empty_detections_zero_report_witness :
    (0 < 1280 * 720) ∧
    ((analyze_crowd_density density_zones [] 720 1280).total_count = 0) ∧
    ((analyze_crowd_density density_zones [] 720 1280).density_per_sqm = 0) ∧
    ((analyze_crowd_density density_zones [] 720 1280).density_level = "low") ∧
    (∀ p ∈ (analyze_crowd_density density_zones [] 720 1280).zone_counts, p.2 = 0) ∧
    (detect_crowd_events (analyze_crowd_density density_zones [] 720 1280) = []) :=
  ⟨by norm_num, C6_empty_detections_zero_report 720 1280 (by norm_num)⟩

/-- C7: for every detections list and a degenerate frame (zero area),
`analyze_crowd_density` still returns (the division is guarded): the
density is 0 and the level is low. -/
theorem C7_degenerate_frame_zero_density (zones : List (String × Zone))
    (dets : List Detection) (h w : Nat) (hzero : w * h = 0) :
    ((analyze_crowd_density zones dets h w).density_per_sqm = 0) ∧
    ((analyze_crowd_density zones dets h w).density_level = "low") := by
  have harea : ((w : ℚ) * (h : ℚ)) / 10000 = 0 := by
    have hc : ((w : ℚ) * (h : ℚ)) = ((w * h : ℕ) : ℚ) := by push_cast; ring
    rw [hc, hzero]
    norm_num
  simp [analyze_crowd_density, harea]
  norm_num

/-- C7 witness: a zero-width frame with one detection. -/
theorem C7_degenerate_frame_zero_density_witness :
    (0 * 720 = 0) ∧
    ((analyze_crowd_density density_zones [⟨5, 5⟩] 720 0).density_per_sqm = 0) ∧
    ((analyze_crowd_density density_zones [⟨5, 5⟩] 720 0).density_level = "low") :=
  ⟨rfl, C7_degenerate_frame_zero_density density_zones [⟨5, 5⟩] 720 0 rfl⟩

/-- C8: a dispatch failure (a request that raises: unreachable endpoint,
timeout, or any other exception) yields a logged-failure outcome, never
an exception out of `send_to_backend`; the report envelope of that cycle
is exactly the one computed from that cycle's detections (unaltered by
the failure); and the run still performs the next cycle's acquisition
and presentation. -/
theorem C8_dispatch_failure_isolated (st : LoopState) (inp1 inp2 : CycleInput)
    (fr1 : Frame) (hfr1 : inp1.frame = some fr1) (hfr2 : inp2.frame.isSome = true)
    (hfail : ∀ code, inp1.http ≠ HttpResult.response code)
    (hsample : (st.frame_count + 1) % 3 = 0) :
    ∃ st2 res1 m,
      run_analysis_cycle density_zones true st inp1 = some (st2, res1) ∧
      res1.outcome = some (DispatchOutcome.failureLogged m) ∧
      res1.report = some
        { timestamp := inp1.timestamp
          camera_id := "CAM001"
          location := "Main Entrance"
          analysis := analyze_crowd_density density_zones inp1.detections fr1.height fr1.width
          events := detect_crowd_events
            (analyze_crowd_density density_zones inp1.detections fr1.height fr1.width) } ∧
      res1.presented = true ∧
      (run_analysis_loop density_zones true st [inp1, inp2]).length = 2 := by
  have hcyc : run_analysis_cycle density_zones true st inp1 = some
      (⟨st.frame_count + 1⟩,
       { stages := [Stage.detect, Stage.analyze, Stage.classify, Stage.dispatch]
         report := some
           { timestamp := inp1.timestamp
             camera_id := "CAM001"
             location := "Main Entrance"
             analysis := analyze_crowd_density density_zones inp1.detections fr1.height fr1.width
             events := detect_crowd_events
               (analyze_crowd_density density_zones inp1.detections fr1.height fr1.width) }
         outcome := some (send_to_backend
           ({ timestamp := inp1.timestamp
              camera_id := "CAM001"
              location := "Main Entrance"
              analysis := analyze_crowd_density density_zones inp1.detections fr1.height fr1.width
              events := detect_crowd_events
                (analyze_crowd_density density_zones inp1.detections fr1.height fr1.width) } :
            ReportEnvelope)
           inp1.http)
         presented := true }) := by
    simp [run_analysis_cycle, hfr1, hsample]
  obtain ⟨m, hm⟩ : ∃ m, send_to_backend
      ({ timestamp := inp1.timestamp
         camera_id := "CAM001"
         location := "Main Entrance"
         analysis := analyze_crowd_density density_zones inp1.detections fr1.height fr1.width
         events := detect_crowd_events
           (analyze_crowd_density density_zones inp1.detections fr1.height fr1.width) } :
       ReportEnvelope)
      inp1.http = DispatchOutcome.failureLogged m := by
    cases hhttp : inp1.http with
    | response code => exact absurd hhttp (hfail code)
    | timeout => exact ⟨_, rfl⟩
    | transportError msg => exact ⟨_, rfl⟩
  obtain ⟨fr2, hfr2s⟩ := Option.isSome_iff_exists.mp hfr2
  obtain ⟨st3, res2, hcyc2⟩ := run_analysis_cycle_some density_zones true
    ⟨st.frame_count + 1⟩ inp2 fr2 hfr2s
  refine ⟨_, _, m, hcyc, by simp [hm], rfl, rfl, ?_⟩
  rw [run_analysis_loop_cons _ _ _ _ _ _ _ hcyc,
      run_analysis_loop_cons _ _ _ _ _ _ _ hcyc2]
  simp [run_analysis_loop]

/-- C8 witness: a timed-out dispatch on the third frame, followed by a
successfully acquired next cycle. -/
theorem C8_dispatch_failure_isolated_witness :
    ((2 + 1) % 3 = 0) ∧
    ∃ st2 res1 m,
      run_analysis_cycle density_zones true ⟨2⟩ inpFail = some (st2, res1) ∧
      res1.outcome = some (DispatchOutcome.failureLogged m) ∧
      res1.report = some
        { timestamp := inpFail.timestamp
          camera_id := "CAM001"
          location := "Main Entrance"
          analysis := analyze_crowd_density density_zones inpFail.detections 720 1280
          events := detect_crowd_events
            (analyze_crowd_density density_zones inpFail.detections 720 1280) } ∧
      res1.presented = true ∧
      (run_analysis_loop density_zones true ⟨2⟩ [inpFail, inpNext]).length = 2 :=
  ⟨rfl, C8_dispatch_failure_isolated ⟨2⟩ inpFail inpNext ⟨720, 1280⟩ rfl rfl
    (fun _ h => nomatch h) rfl⟩

/-- C9: in the main loop, the detection, analysis, classification and
dispatch stages run, in that order, exactly on frames whose incremented
counter is divisible by 3; on those frames the report is built fresh
from that frame's detections, on all other frames no stage runs and no
report is produced (so none is reused), and presentation happens on
every iteration whenever display is enabled, independent of sampling. -/
theorem C9_sampling_every_third_frame (zones : List (String × Zone)) (show_video : Bool)
    (st : LoopState) (inp : CycleInput) (fr : Frame) (hfr : inp.frame = some fr) :
    ∃ st2 res, run_analysis_cycle zones show_video st inp = some (st2, res) ∧
      st2.frame_count = st.frame_count + 1 ∧
      res.presented = show_video ∧
      ((st.frame_count + 1) % 3 = 0 →
        res.stages = [Stage.detect, Stage.analyze, Stage.classify, Stage.dispatch] ∧
        res.report = some
          { timestamp := inp.timestamp
            camera_id := "CAM001"
            location := "Main Entrance"
            analysis := analyze_crowd_density zones inp.detections fr.height fr.width
            events := detect_crowd_events
              (analyze_crowd_density zones inp.detections fr.height fr.width) } ∧
        res.outcome = some (send_to_backend
          ({ timestamp := inp.timestamp
             camera_id := "CAM001"
             location := "Main Entrance"
             analysis := analyze_crowd_density zones inp.detections fr.height fr.width
             events := detect_crowd_events
               (analyze_crowd_density zones inp.detections fr.height fr.width) } :
           ReportEnvelope)
          inp.http)) ∧
      ((st.frame_count + 1) % 3 ≠ 0 →
        res.stages = [] ∧ res.report = none ∧ res.outcome = none) := by
  by_cases hs : (st.frame_count + 1) % 3 = 0 <;>
    simp [run_analysis_cycle, hfr, hs] <;>
    exact ⟨_, _, ⟨rfl, rfl⟩, by simp⟩

/-- C9 witness: the schedule instantiated at frame counter 2, so the
third frame is sampled. -/
theorem C9_sampling_every_third_frame_witness :
    ∃ st2 res, run_analysis_cycle density_zones true ⟨2⟩ inpNext = some (st2, res) ∧
      st2.frame_count = 2 + 1 ∧
      res.presented = true ∧
      ((2 + 1) % 3 = 0 →
        res.stages = [Stage.detect, Stage.analyze, Stage.classify, Stage.dispatch] ∧
        res.report = some
          { timestamp := inpNext.timestamp
            camera_id := "CAM001"
            location := "Main Entrance"
            analysis := analyze_crowd_density density_zones inpNext.detections 720 1280
            events := detect_crowd_events
              (analyze_crowd_density density_zones inpNext.detections 720 1280) } ∧
        res.outcome = some (send_to_backend
          ({ timestamp := inpNext.timestamp
             camera_id := "CAM001"
             location := "Main Entrance"
             analysis := analyze_crowd_density density_zones inpNext.detections 720 1280
             events := detect_crowd_events
               (analyze_crowd_density density_zones inpNext.detections 720 1280) } :
           ReportEnvelope)
          inpNext.http)) ∧
      ((2 + 1) % 3 ≠ 0 →
        res.stages = [] ∧ res.report = none ∧ res.outcome = none) :=
  C9_sampling_every_third_frame density_zones true ⟨2⟩ inpNext ⟨720, 1280⟩ rfl

/-- C10: for every detections list and frame shape, the zone-counts
mapping has exactly the configured zone names as keys, in configuration
order, and every zone count is at most the total count. -/
theorem C10_zone_counts_keys_and_bound (dets : List Detection) (h w : Nat) :
    ((analyze_crowd_density density_zones dets h w).zone_counts.map Prod.fst =
      ["entrance", "center", "exit"]) ∧
    (∀ p ∈ (analyze_crowd_density density_zones dets h w).zone_counts,
      p.2 ≤ (analyze_crowd_density density_zones dets h w).total_count) := by
  constructor
  · simp [analyze_crowd_density, density_zones]
  · intro p hp
    have hzc : (analyze_crowd_density density_zones dets h w).zone_counts =
        density_zones.map (fun z => (z.1, (dets.filter (fun d => inZone z.2 d)).length)) := rfl
    rw [hzc] at hp
    rcases List.mem_map.mp hp with ⟨z, _, rfl⟩
    simpa [analyze_crowd_density] using List.length_filter_le _ dets

/-- C10 witness: the key set and count bound at one detection in the
entrance zone on a 1280 by 720 frame. -/
theorem C10_zone_counts_keys_and_bound_witness :
    ((analyze_crowd_density density_zones [⟨10, 10⟩] 720 1280).zone_counts.map Prod.fst =
      ["entrance", "center", "exit"]) ∧
    (∀ p ∈ (analyze_crowd_density density_zones [⟨10, 10⟩] 720 1280).zone_counts,
      p.2 ≤ (analyze_crowd_density density_zones [⟨10, 10⟩] 720 1280).total_count) :=
  C10_zone_counts_keys_and_bound [⟨10, 10⟩] 720 1280
